import Mathlib

/-!
Shallow embedding of the rooms CRUD microservice (index.js).

The service is five Express route handlers over a Mongoose model `Room`.
Each handler performs one document-store operation inside a try/catch and
answers with an HTTP status and a JSON body.  The store (MongoDB through
Mongoose) is modelled explicitly: a list of stored documents, a counter
from which fresh identifiers are generated, and a clock for the
timestamps maintained by the schema option `timestamps: true`.
-/

/-- A room document as stored in the collection: the eight schema fields
declared in the source (roomNumber, type, price, isAvailable, amenities,
capacity, description, floor) together with the identifier assigned by
the store and the createdAt and updatedAt timestamps. -/
structure StoredRoom where
  id : String
  roomNumber : String
  type : String
  price : Int
  isAvailable : Bool
  amenities : List String
  capacity : Int
  description : Option String
  floor : Int
  createdAt : Nat
  updatedAt : Nat
deriving Repr, DecidableEq

/-- A request body for POST /rooms or PUT /rooms/:id: each schema field is
optional, absent fields are `none`.  Besides the eight declared fields the
schema carries the implicit `_id` path, and `new Room(req.body)` as well
as `findByIdAndUpdate(id, req.body)` honor a client-supplied `_id`, so the
payload carries it too. -/
structure RoomPayload where
  _id : Option String := none
  roomNumber : Option String := none
  type : Option String := none
  price : Option Int := none
  isAvailable : Option Bool := none
  amenities : Option (List String) := none
  capacity : Option Int := none
  description : Option String := none
  floor : Option Int := none
deriving Repr, DecidableEq

/-- The document store: the rooms collection, the counter from which the
next generated identifier is derived, and the current clock value used
for the timestamps. -/
structure Store where
  rooms : List StoredRoom
  nextId : Nat
  now : Nat
deriving Repr, DecidableEq

/-- JSON response bodies produced by the handlers: an array of rooms, a
single room, an error object with a message field, or the delete response
`\x7bmessage, room\x7d`. -/
inductive JsonBody where
  | rooms : List StoredRoom → JsonBody
  | room : StoredRoom → JsonBody
  | msg : String → JsonBody
  | msgRoom : String → StoredRoom → JsonBody
deriving Repr, DecidableEq

/-- An HTTP response: status code and JSON body. -/
structure HttpResponse where
  status : Nat
  body : JsonBody
deriving Repr, DecidableEq

/-- Lowercase hexadecimal digit for a nibble value. -/
def hexChar (d : Nat) : Char :=
  Char.ofNat (if d < 10 then 48 + d else 87 + d)

/-- Hexadecimal digit test (both cases), as MongoDB ObjectId strings are
hexadecimal. -/
def isHexDigitChar (c : Char) : Bool :=
  c.isDigit || (Char.ofNat 97 ≤ c && c ≤ Char.ofNat 102) ||
    (Char.ofNat 65 ≤ c && c ≤ Char.ofNat 70)

/-- Well-formedness of a document key: MongoDB ObjectId strings are
24 hexadecimal characters.  A string that is not of this shape cannot be
cast by the store client and makes findById and friends fail with a
CastError. -/
def isValidObjectId (s : String) : Bool :=
  s.length == 24 && s.data.all isHexDigitChar

/-- The identifier the store assigns for counter value `n`: a 24-digit
hexadecimal rendering (little-endian nibble `i` of `n` at position
`23 - i`).  Models ObjectId generation; what matters is that the result
is a well-formed key and fresh for the store. -/
def genId (n : Nat) : String :=
  String.mk ((List.range 24).map (fun i => hexChar (n / 16 ^ (23 - i) % 16)))

/-- Membership in the schema enum for the `type` path:
`enum: ['single', 'double', 'suite']`. -/
def isRoomType (t : String) : Bool :=
  t == "single" || t == "double" || t == "suite"

/-- Validation run between `new Room(req.body)` and a successful
`save()`: a client-supplied `_id` must cast to a well-formed key
(CastError at construction otherwise) and must not collide with a stored
document (duplicate-key error on insert otherwise); the required paths
(roomNumber, type, price, capacity, floor) must be present; the `type`
value must be in the enum; and `roomNumber` must not collide with a
stored document (unique index). -/
def validateCreate (s : Store) (p : RoomPayload) : Bool :=
  (match p._id with
   | some pid => isValidObjectId pid && s.rooms.all (fun r => !(r.id == pid))
   | none => true) &&
  (match p.roomNumber with
   | some rn => s.rooms.all (fun r => !(r.roomNumber == rn))
   | none => false) &&
  (match p.type with
   | some t => isRoomType t
   | none => false) &&
  p.price.isSome && p.capacity.isSome && p.floor.isSome

/-- The identifier the created document ends up with: the client-supplied
`_id` when the body carries one (as `new Room(req.body)` honors it), the
identifier generated from the store counter otherwise. -/
def newId (s : Store) (p : RoomPayload) : String :=
  match p._id with
  | some pid => pid
  | none => genId s.nextId

/-- The document built by `new Room(req.body)` once `save()` succeeds at
store state `s`: the identifier is the client-supplied one when present
and the store-generated one otherwise, the schema default
`isAvailable: true` applies when the field is absent, an absent array
path defaults to the empty array, and both timestamps are set to the
current clock. -/
def mkRoom (s : Store) (p : RoomPayload) : StoredRoom :=
  { id := newId s p
    roomNumber := p.roomNumber.getD ""
    type := p.type.getD ""
    price := p.price.getD 0
    isAvailable := p.isAvailable.getD true
    amenities := p.amenities.getD []
    capacity := p.capacity.getD 0
    description := p.description
    floor := p.floor.getD 0
    createdAt := s.now
    updatedAt := s.now }

/-- Handler for POST /rooms: `new Room(req.body)` then `save()`.  On
successful validation the document is appended to the collection and the
handler answers 201 with the created document; a validation failure is
caught and answered 500 with a message body, nothing is stored. -/
def createRoom (p : RoomPayload) (s : Store) : Store × HttpResponse :=
  if validateCreate s p then
    let r := mkRoom s p
    ({ s with rooms := s.rooms ++ [r], nextId := s.nextId + 1 },
     ⟨201, .room r⟩)
  else
    (s, ⟨500, .msg "Error creating room"⟩)

/-- The filter the GET /rooms handler builds from the query string:
when `available` is present (even empty) the handler compares the raw
string to the literal "true" and filters isAvailable on the result; when
`type` is present and truthy (non-empty, as the source guards with
`if (type)`) the handler filters on equality of the type field. -/
def matchesQuery (available ty : Option String) (r : StoredRoom) : Bool :=
  (match available with
   | none => true
   | some v => r.isAvailable == (v == "true")) &&
  (match ty with
   | none => true
   | some t => if t == "" then true else r.type == t)

/-- Handler for GET /rooms: `Room.find(query)` with the filter built from
the `available` and `type` query parameters, answered 200 with the array
of matching documents. -/
def getRooms (available ty : Option String) (s : Store) : HttpResponse :=
  ⟨200, .rooms (s.rooms.filter (matchesQuery available ty))⟩

/-- The store client operation behind `Room.findById(id)`: a string that
is not a well-formed key fails to cast and the promise rejects
(`Except.error`), otherwise the collection is searched for the document
with that identifier and `none` is returned when it is absent. -/
def findById (s : Store) (id : String) : Except String (Option StoredRoom) :=
  if isValidObjectId id then
    .ok (s.rooms.find? (fun r => r.id == id))
  else
    .error "CastError"

/-- Handler for GET /rooms/:id: a rejected findById is caught and
answered 500; a null result is answered 404 with a message body; a found
document is answered 200 with the document. -/
def getRoom (id : String) (s : Store) : HttpResponse :=
  match findById s id with
  | .error _ => ⟨500, .msg "Error retrieving room"⟩
  | .ok none => ⟨404, .msg "Room not found"⟩
  | .ok (some r) => ⟨200, .room r⟩

/-- Client-side checks `findByIdAndUpdate(id, body, \x7brunValidators:
true\x7d)` performs before any server lookup: the update document is cast
(a supplied `_id` must be a well-formed key) and the update validators
run on the supplied paths (a supplied `type` must be in the enum).
These reject whether or not the identifier exists.  Required paths
absent from the update are not re-checked: update validators only apply
to supplied paths. -/
def castUpdate (p : RoomPayload) : Bool :=
  (match p._id with
   | some pid => isValidObjectId pid
   | none => true) &&
  (match p.type with
   | some t => isRoomType t
   | none => true)

/-- Server-side conditions for the write on the matched document: the
`_id` path is immutable (a supplied `_id` differing from the matched
document errors) and the unique index rejects a `roomNumber` colliding
with a different stored document.  These only fire when a document was
matched, as no write happens otherwise. -/
def serverUpdateOk (s : Store) (r : StoredRoom) (p : RoomPayload) : Bool :=
  (match p._id with
   | some pid => pid == r.id
   | none => true) &&
  (match p.roomNumber with
   | some rn => s.rooms.all (fun q => q.id == r.id || !(q.roomNumber == rn))
   | none => true)

/-- The effect of the update document on a stored room: Mongoose casts the
plain request body to a `$set`, so each supplied field replaces the
stored value, each absent field is left untouched, the identifier and
createdAt never change, and `timestamps: true` refreshes updatedAt. -/
def applyUpdate (r : StoredRoom) (p : RoomPayload) (now : Nat) : StoredRoom :=
  { r with
    roomNumber := p.roomNumber.getD r.roomNumber
    type := p.type.getD r.type
    price := p.price.getD r.price
    isAvailable := p.isAvailable.getD r.isAvailable
    amenities := p.amenities.getD r.amenities
    capacity := p.capacity.getD r.capacity
    description := (match p.description with
      | some d => some d
      | none => r.description)
    floor := p.floor.getD r.floor
    updatedAt := now }

/-- Handler for PUT /rooms/:id: `Room.findByIdAndUpdate(id, body,
\x7bnew: true, runValidators: true\x7d)`.  A malformed key or a
client-side cast/validation failure rejects before the lookup and is
caught as 500 (even when the identifier does not exist); an absent
identifier yields null and is answered 404 with a message body; a
server-side write rejection (immutable `_id`, unique index) is caught as
500; otherwise the stored document is updated in place and the handler
answers 200 with the updated document (`new: true`). -/
def updateRoom (id : String) (p : RoomPayload) (s : Store) :
    Store × HttpResponse :=
  if isValidObjectId id then
    if castUpdate p then
      match s.rooms.find? (fun r => r.id == id) with
      | none => (s, ⟨404, .msg "Room not found"⟩)
      | some r =>
        if serverUpdateOk s r p then
          let r2 := applyUpdate r p s.now
          ({ s with
              rooms := s.rooms.map (fun q => if q.id == id then r2 else q) },
           ⟨200, .room r2⟩)
        else
          (s, ⟨500, .msg "Error updating room"⟩)
    else
      (s, ⟨500, .msg "Error updating room"⟩)
  else
    (s, ⟨500, .msg "Error updating room"⟩)

/-- Handler for DELETE /rooms/:id: `Room.findByIdAndDelete(id)`.  A
malformed key rejects and is caught as 500; an absent identifier yields
null and is answered 404; otherwise the document is removed from the
collection (hard delete; identifiers are the primary key, so removing
every document with this identifier removes exactly the matched one) and
the handler answers 200 with a message and the prior state of the
document. -/
def deleteRoom (id : String) (s : Store) : Store × HttpResponse :=
  if isValidObjectId id then
    match s.rooms.find? (fun r => r.id == id) with
    | none => (s, ⟨404, .msg "Room not found"⟩)
    | some r =>
      ({ s with rooms := s.rooms.filter (fun q => !(q.id == id)) },
       ⟨200, .msgRoom "Room deleted successfully" r⟩)
  else
    (s, ⟨500, .msg "Error deleting room"⟩)

/-- The empty store with counter 0 and clock 100, used as concrete input
in witnesses. -/
def store0 : Store := ⟨[], 0, 100⟩

/-- A concrete valid creation payload. -/
def payload1 : RoomPayload :=
  { roomNumber := some "C400", type := some "double", price := some 150,
    capacity := some 2, floor := some 4 }

/-- The store holding exactly the room created from `payload1` in
`store0`. -/
def store1 : Store := (createRoom payload1 store0).1

/-- The room created from `payload1` in `store0`. -/
def room1 : StoredRoom := mkRoom store0 payload1

/-- A second stored room, not available, used as concrete input in
witnesses. -/
def room2 : StoredRoom :=
  { id := genId 1, roomNumber := "C401", type := "suite", price := 200,
    isAvailable := false, amenities := [], capacity := 3,
    description := none, floor := 5, createdAt := 100, updatedAt := 100 }

/-- A store holding one available and one unavailable room. -/
def store2 : Store := ⟨[room1, room2], 2, 100⟩

/-- Semantic reading of the GET /rooms filter: when the availability
parameter is present the room is kept exactly when its availability
equals the comparison of the raw value with the literal "true"; when the
type parameter is present and non-empty the room is kept exactly when
its type equals it. -/
def MatchesProp (available ty : Option String) (r : StoredRoom) : Prop :=
  (∀ v, available = some v → (r.isAvailable = true ↔ v = "true")) ∧
  (∀ t, ty = some t → t ≠ "" → r.type = t)

/-- A creation payload missing the required roomNumber path, used as
concrete input in witnesses. -/
def payloadMissing : RoomPayload :=
  { type := some "double", price := some 10, capacity := some 1,
    floor := some 1 }

/-- An update payload whose type is outside the schema enum, used as
concrete input against the update validators. -/
def payloadBadType : RoomPayload :=
  { type := some "penthouse" }

/-- A creation payload that supplies its own well-formed identifier
besides all required fields, used as concrete input against identifier
assignment. -/
def payloadClientId : RoomPayload :=
  { _id := some (genId 5), roomNumber := some "C500",
    type := some "single", price := some 99, capacity := some 1,
    floor := some 1 }

/- Helper lemmas -/

/-- Every nibble renders to a hexadecimal character. -/
theorem hexChar_isHex (d : Nat) (h : d < 16) :
    isHexDigitChar (hexChar d) = true := by
  interval_cases d <;> decide

/-- Identifiers produced by the store are well-formed keys. -/
theorem genId_isValid (n : Nat) : isValidObjectId (genId n) = true := by
  unfold isValidObjectId genId
  rw [Bool.and_eq_true]
  refine ⟨by simp [String.length], ?_⟩
  rw [List.all_eq_true]
  intro c hc
  simp only [String.mk] at hc
  rw [List.mem_map] at hc
  obtain ⟨i, _, rfl⟩ := hc
  exact hexChar_isHex _ (Nat.mod_lt _ (by norm_num))

/-- In a list whose projected keys are pairwise distinct, the first
element found for a member key is that member. -/
theorem find?_eq_of_nodup (l : List StoredRoom) (r : StoredRoom)
    (hnd : (l.map (fun q => q.id)).Nodup) (hmem : r ∈ l) :
    l.find? (fun q => q.id == r.id) = some r := by
  induction l with
  | nil => cases hmem
  | cons a l ih =>
    rw [List.map_cons, List.nodup_cons] at hnd
    rcases List.mem_cons.mp hmem with h | h
    · subst h
      simp [List.find?_cons_of_pos]
    · have hne : (a.id == r.id) = false := by
        rw [beq_eq_false_iff_ne]
        intro he
        exact hnd.1 (he ▸ List.mem_map_of_mem (fun q => q.id) h)
      rw [List.find?_cons_of_neg _ (by simp [hne]), ih hnd.2 h]

/-- find? on an appended singleton when every earlier element fails the
test. -/
theorem find?_append_last {α : Type} (l : List α) (x : α) (p : α → Bool)
    (h : ∀ y ∈ l, p y = false) (hx : p x = true) :
    (l ++ [x]).find? p = some x := by
  induction l with
  | nil => simp [List.find?_cons_of_pos, hx]
  | cons a l ih =>
    rw [List.cons_append,
      List.find?_cons_of_neg _ (by simp [h a (List.mem_cons_self a l)])]
    exact ih (fun y hy => h y (List.mem_cons_of_mem a hy))

/-- Characterisation of create validation in terms of the schema
constraints: required paths present, enum membership for type, and
uniqueness of roomNumber in the collection. -/
theorem validateCreate_iff (s : Store) (p : RoomPayload) :
    validateCreate s p = true ↔
      (∀ pid, p._id = some pid →
        isValidObjectId pid = true ∧ ∀ r ∈ s.rooms, r.id ≠ pid) ∧
      (∃ rn, p.roomNumber = some rn ∧ ∀ r ∈ s.rooms, r.roomNumber ≠ rn) ∧
      (∃ t, p.type = some t ∧ isRoomType t = true) ∧
      p.price.isSome = true ∧ p.capacity.isSome = true ∧
      p.floor.isSome = true := by
  unfold validateCreate
  cases hid : p._id with
  | none =>
    cases hrn : p.roomNumber with
    | none => simp
    | some rn =>
      cases ht : p.type with
      | none => simp
      | some t =>
        simp only [Bool.true_and, Bool.and_eq_true, List.all_eq_true]
        constructor
        · rintro ⟨⟨⟨⟨h1, h2⟩, h3⟩, h4⟩, h5⟩
          exact ⟨fun pid2 hpid2 => Option.noConfusion hpid2,
            ⟨rn, rfl, fun r hr => by simpa using h1 r hr⟩,
            ⟨t, rfl, h2⟩, h3, h4, h5⟩
        · rintro ⟨-, ⟨rn2, hrn2, h1⟩, ⟨t2, ht2, h2⟩, h3, h4, h5⟩
          obtain rfl : rn2 = rn := by injection hrn2 with he; exact he.symm
          obtain rfl : t2 = t := by injection ht2 with he; exact he.symm
          exact ⟨⟨⟨⟨fun r hr => by simpa using h1 r hr, h2⟩, h3⟩, h4⟩, h5⟩
  | some pid =>
    cases hrn : p.roomNumber with
    | none => simp
    | some rn =>
      cases ht : p.type with
      | none => simp
      | some t =>
        simp only [Bool.and_eq_true, List.all_eq_true]
        constructor
        · rintro ⟨⟨⟨⟨⟨⟨hv, h0⟩, h1⟩, h2⟩, h3⟩, h4⟩, h5⟩
          refine ⟨?_, ⟨rn, rfl, fun r hr => by simpa using h1 r hr⟩,
            ⟨t, rfl, h2⟩, h3, h4, h5⟩
          intro pid2 hpid2
          obtain rfl : pid2 = pid := by injection hpid2 with he; exact he.symm
          exact ⟨hv, fun r hr => by simpa using h0 r hr⟩
        · rintro ⟨hI, ⟨rn2, hrn2, h1⟩, ⟨t2, ht2, h2⟩, h3, h4, h5⟩
          obtain rfl : rn2 = rn := by injection hrn2 with he; exact he.symm
          obtain rfl : t2 = t := by injection ht2 with he; exact he.symm
          obtain ⟨hv, h0⟩ := hI pid rfl
          exact ⟨⟨⟨⟨⟨⟨hv, fun r hr => by simpa using h0 r hr⟩,
            fun r hr => by simpa using h1 r hr⟩, h2⟩, h3⟩, h4⟩, h5⟩

/-- The filter tested by the list handler agrees with its semantic
reading. -/
theorem matchesQuery_iff (available ty : Option String) (r : StoredRoom) :
    matchesQuery available ty r = true ↔ MatchesProp available ty r := by
  unfold matchesQuery MatchesProp
  cases available with
  | none =>
    cases ty with
    | none => simp
    | some t =>
      cases he : (t == "") with
      | true => simp [beq_iff_eq.mp he]
      | false =>
        have hne : t ≠ "" := by simpa using he
        simp [hne, beq_iff_eq]
  | some v =>
    cases ty with
    | none =>
      cases hv : (v == "true") with
      | true =>
        simp [beq_iff_eq.mp hv, beq_iff_eq]
      | false =>
        have hne : v ≠ "true" := by simpa using hv
        cases hb : r.isAvailable <;> simp [hne, hb]
    | some t =>
      cases hv : (v == "true") with
      | true =>
        cases he : (t == "") with
        | true =>
          simp [beq_iff_eq.mp hv, beq_iff_eq.mp he, beq_iff_eq]
        | false =>
          have hne : t ≠ "" := by simpa using he
          simp [beq_iff_eq.mp hv, hne, beq_iff_eq]
      | false =>
        have hnv : v ≠ "true" := by simpa using hv
        cases he : (t == "") with
        | true =>
          cases hb : r.isAvailable <;>
            simp [beq_iff_eq.mp he, hnv, hb]
        | false =>
          have hne : t ≠ "" := by simpa using he
          cases hb : r.isAvailable <;> simp [hnv, hne, hb, beq_iff_eq]

/- Claim theorems -/

/-- C1 as stated is false on the code: a Get with an identifier that is
not a well-formed key makes the store client reject, which the handler
catches and answers 500, not 404.  Concretely, the identifier "bad"
matches no stored entity and is malformed, yet the response status is
500. -/
theorem getRoom_malformed_counterexample :
    isValidObjectId "bad" = false ∧
    (getRoom "bad" store0).status = 500 ∧
    ¬ (getRoom "bad" store0).status = 404 := by
  decide

/-- C1 (amended): a Get whose identifier is not a well-formed key for the
store is answered 500 with a message body; a well-formed identifier that
matches no stored entity is answered 404 with a JSON message body; a
well-formed identifier of a stored entity (identifiers being pairwise
distinct) is answered 200 with the matching entity. -/
theorem getRoom_spec (id : String) (s : Store) :
    (isValidObjectId id = false →
      getRoom id s = ⟨500, .msg "Error retrieving room"⟩) ∧
    (isValidObjectId id = true → (∀ r ∈ s.rooms, r.id ≠ id) →
      getRoom id s = ⟨404, .msg "Room not found"⟩) ∧
    (∀ r, r ∈ s.rooms → r.id = id → isValidObjectId id = true →
      (s.rooms.map (fun q => q.id)).Nodup →
      getRoom id s = ⟨200, .room r⟩) := by
  refine ⟨?_, ?_, ?_⟩
  · intro h
    simp [getRoom, findById, h]
  · intro h habs
    have hn : s.rooms.find? (fun r => r.id == id) = none := by
      rw [List.find?_eq_none]
      intro r hr
      simpa using habs r hr
    simp [getRoom, findById, h, hn]
  · intro r hmem hid hv hnd
    subst hid
    have hf := find?_eq_of_nodup s.rooms r hnd hmem
    simp [getRoom, findById, hv, hf]

/-- Witness for the amended C1 at concrete inputs: a malformed key gives
500, an absent well-formed key gives 404, a stored key gives 200 with the
room. -/
theorem getRoom_spec_witness :
    getRoom "bad" store0 = ⟨500, .msg "Error retrieving room"⟩ ∧
    getRoom (genId 7) store0 = ⟨404, .msg "Room not found"⟩ ∧
    getRoom room1.id store1 = ⟨200, .room room1⟩ :=
  ⟨(getRoom_spec "bad" store0).1 (by decide),
   (getRoom_spec (genId 7) store0).2.1 (genId_isValid 7) (by decide),
   (getRoom_spec room1.id store1).2.2 room1 (by decide) rfl
     (genId_isValid 0) (by decide)⟩

/-- C2: a Create whose payload carries all required fields, satisfies
the schema constraints (type in the enum, roomNumber unique in the
collection) and supplies no identifier of its own is answered 201 with
the created entity, whose identifier is generated from the store counter
and whose two timestamps are set by the store; the entity is appended to
the collection. -/
theorem createRoom_valid (s : Store) (p : RoomPayload)
    (hid : p._id = none)
    (hrn : ∃ rn, p.roomNumber = some rn ∧ ∀ r ∈ s.rooms, r.roomNumber ≠ rn)
    (ht : ∃ t, p.type = some t ∧ isRoomType t = true)
    (hp : p.price.isSome = true) (hc : p.capacity.isSome = true)
    (hf : p.floor.isSome = true) :
    (createRoom p s).2 = ⟨201, .room (mkRoom s p)⟩ ∧
    (mkRoom s p).id = genId s.nextId ∧
    (mkRoom s p).createdAt = s.now ∧ (mkRoom s p).updatedAt = s.now ∧
    (createRoom p s).1.rooms = s.rooms ++ [mkRoom s p] := by
  have hv : validateCreate s p = true :=
    (validateCreate_iff s p).mpr
      ⟨(by intro pid hpid; rw [hid] at hpid; cases hpid), hrn, ht, hp, hc, hf⟩
  refine ⟨?_, ?_, rfl, rfl, ?_⟩
  · simp [createRoom, hv]
  · simp [mkRoom, newId, hid]
  · simp [createRoom, hv]

/-- Witness for C2: creating from the concrete valid payload in the empty
store answers 201 with the room whose identifier is genId 0. -/
theorem createRoom_valid_witness :
    (createRoom payload1 store0).2 = ⟨201, .room (mkRoom store0 payload1)⟩ ∧
    (mkRoom store0 payload1).id = genId 0 :=
  ⟨(createRoom_valid store0 payload1 rfl ⟨"C400", by decide, by decide⟩
      ⟨"double", by decide, by decide⟩ (by decide) (by decide)
      (by decide)).1,
   (createRoom_valid store0 payload1 rfl ⟨"C400", by decide, by decide⟩
      ⟨"double", by decide, by decide⟩ (by decide) (by decide)
      (by decide)).2.1⟩

/-- C5: a Create whose payload misses a required field or violates a
schema constraint (type outside the enum, duplicate roomNumber) is
answered 500 (not 400) with a JSON message body, and the store is
unchanged: nothing is inserted. -/
theorem createRoom_invalid (s : Store) (p : RoomPayload)
    (h : p.roomNumber = none ∨ p.type = none ∨ p.price = none ∨
      p.capacity = none ∨ p.floor = none ∨
      (∃ t, p.type = some t ∧ isRoomType t = false) ∨
      (∃ rn, p.roomNumber = some rn ∧ ∃ r ∈ s.rooms, r.roomNumber = rn)) :
    createRoom p s = (s, ⟨500, .msg "Error creating room"⟩) := by
  have hv : validateCreate s p = false := by
    rw [Bool.eq_false_iff]
    intro hvt
    obtain ⟨-, ⟨rn, hrn, hu⟩, ⟨t, htt, hT⟩, h3, h4, h5⟩ :=
      (validateCreate_iff s p).mp hvt
    rcases h with h | h | h | h | h | h | h
    · rw [h] at hrn; cases hrn
    · rw [h] at htt; cases htt
    · rw [h] at h3; simp at h3
    · rw [h] at h4; simp at h4
    · rw [h] at h5; simp at h5
    · obtain ⟨t2, ht2, hf2⟩ := h
      rw [htt] at ht2
      injection ht2 with he
      rw [← he, hT] at hf2
      cases hf2
    · obtain ⟨rn2, hrn2, r, hrmem, hreq⟩ := h
      rw [hrn] at hrn2
      injection hrn2 with he
      exact hu r hrmem (hreq.trans he.symm)
  simp [createRoom, hv]

/-- Witness for C5: the concrete payload missing roomNumber is rejected
with 500 and the empty store stays empty. -/
theorem createRoom_invalid_witness :
    createRoom payloadMissing store0 =
      (store0, ⟨500, .msg "Error creating room"⟩) :=
  createRoom_invalid store0 payloadMissing (Or.inl rfl)

/-- C3: after a successful Create from a payload supplying no identifier
of its own, a Get with the identifier returned by Create (fresh for the
store, as generated identifiers are) is answered
200 with an entity equal field for field to the payload that was sent,
together with the store-generated identifier, timestamps and defaults
(isAvailable true and an empty amenities array when absent, description
passed through). -/
theorem create_then_get (s : Store) (p : RoomPayload)
    (hid : p._id = none)
    (hrn : ∃ rn, p.roomNumber = some rn ∧ ∀ r ∈ s.rooms, r.roomNumber ≠ rn)
    (ht : ∃ t, p.type = some t ∧ isRoomType t = true)
    (hp : p.price.isSome = true) (hc : p.capacity.isSome = true)
    (hf : p.floor.isSome = true)
    (hfresh : ∀ r ∈ s.rooms, r.id ≠ genId s.nextId) :
    ∃ r, (createRoom p s).2 = ⟨201, .room r⟩ ∧
      getRoom r.id (createRoom p s).1 = ⟨200, .room r⟩ ∧
      r.id = genId s.nextId ∧ r.createdAt = s.now ∧ r.updatedAt = s.now ∧
      (∀ x, p.roomNumber = some x → r.roomNumber = x) ∧
      (∀ x, p.type = some x → r.type = x) ∧
      (∀ x, p.price = some x → r.price = x) ∧
      (∀ x, p.isAvailable = some x → r.isAvailable = x) ∧
      (p.isAvailable = none → r.isAvailable = true) ∧
      (∀ x, p.amenities = some x → r.amenities = x) ∧
      (p.amenities = none → r.amenities = []) ∧
      r.description = p.description ∧
      (∀ x, p.capacity = some x → r.capacity = x) ∧
      (∀ x, p.floor = some x → r.floor = x) := by
  have hv : validateCreate s p = true :=
    (validateCreate_iff s p).mpr
      ⟨(by intro pid hpid; rw [hid] at hpid; cases hpid), hrn, ht, hp, hc, hf⟩
  have hidr : (mkRoom s p).id = genId s.nextId := by
    simp [mkRoom, newId, hid]
  refine ⟨mkRoom s p, ?_, ?_, hidr, rfl, rfl,
    fun x hx => by simp [mkRoom, hx],
    fun x hx => by simp [mkRoom, hx],
    fun x hx => by simp [mkRoom, hx],
    fun x hx => by simp [mkRoom, hx],
    fun hx => by simp [mkRoom, hx],
    fun x hx => by simp [mkRoom, hx],
    fun hx => by simp [mkRoom, hx],
    rfl,
    fun x hx => by simp [mkRoom, hx],
    fun x hx => by simp [mkRoom, hx]⟩
  · simp [createRoom, hv]
  · have hfind : ((s.rooms ++ [mkRoom s p]).find?
        (fun q => q.id == genId s.nextId)) = some (mkRoom s p) := by
      apply find?_append_last
      · intro y hy
        simpa using hfresh y hy
      · simp [mkRoom, newId, hid]
    rw [hidr]
    simp [createRoom, hv, getRoom, findById, genId_isValid, hfind]

/-- Witness for C3: creating from the concrete valid payload in the empty
store and fetching the returned identifier answers 200 with the created
room. -/
theorem create_then_get_witness :
    ∃ r, (createRoom payload1 store0).2 = ⟨201, .room r⟩ ∧
      getRoom r.id (createRoom payload1 store0).1 = ⟨200, .room r⟩ := by
  obtain ⟨r, h1, h2, -⟩ := create_then_get store0 payload1 rfl
    ⟨"C400", by decide, by decide⟩ ⟨"double", by decide, by decide⟩
    (by decide) (by decide) (by decide) (by decide)
  exact ⟨r, h1, h2⟩

/-- C4: a List request is answered 200 with exactly the stored entities
matching the supplied filters, each passed through unchanged; when no
stored entity matches, the result is the empty sequence with status 200,
not an error. -/
theorem getRooms_spec (available ty : Option String) (s : Store) :
    (getRooms available ty s).status = 200 ∧
    ∃ l, (getRooms available ty s).body = .rooms l ∧
      (∀ r, r ∈ l ↔ r ∈ s.rooms ∧ MatchesProp available ty r) ∧
      ((∀ r ∈ s.rooms, ¬ MatchesProp available ty r) → l = []) := by
  refine ⟨rfl, s.rooms.filter (matchesQuery available ty), rfl, ?_, ?_⟩
  · intro r
    rw [List.mem_filter, matchesQuery_iff]
  · intro h
    rw [List.filter_eq_nil_iff]
    intro a ha hpa
    exact h a ha ((matchesQuery_iff available ty a).mp hpa)

/-- Witness for C4 at a concrete store: filtering on availability keeps
the available room and drops the unavailable one. -/
theorem getRooms_spec_witness :
    ∃ l, (getRooms (some "true") none store2).body = .rooms l ∧
      room1 ∈ l ∧ ¬ room2 ∈ l := by
  obtain ⟨-, l, hb, hiff, -⟩ := getRooms_spec (some "true") none store2
  refine ⟨l, hb, ?_, ?_⟩
  · refine (hiff room1).mpr ⟨by decide, ?_, fun t ht => by simp at ht⟩
    intro v hv
    injection hv with he
    subst he
    decide
  · intro hmem
    have hm := ((hiff room2).mp hmem).2.1 "true" rfl
    exact absurd (hm.mpr rfl) (by decide)

/-- C10: when the query parameter `available` is present, the filter
selects the rooms with isAvailable true exactly when its raw value is the
literal string "true", and selects the rooms with isAvailable false for
every other present value. -/
theorem availableFilterLiteral (v : String) (s : Store) (r : StoredRoom)
    (hmem : r ∈ s.rooms) :
    ∃ l, (getRooms (some v) none s).body = .rooms l ∧
      (v = "true" → (r ∈ l ↔ r.isAvailable = true)) ∧
      (v ≠ "true" → (r ∈ l ↔ r.isAvailable = false)) := by
  refine ⟨s.rooms.filter (matchesQuery (some v) none), rfl, ?_, ?_⟩
  · intro hv
    subst hv
    simp [List.mem_filter, hmem, matchesQuery]
  · intro hv
    have hb : (v == "true") = false := by simpa using hv
    simp [List.mem_filter, hmem, matchesQuery, hb]

/-- Witness for C10: with the value "false" (and likewise any value other
than the literal "true") the unavailable room is selected. -/
theorem availableFilterLiteral_witness :
    ∃ l, (getRooms (some "false") none store2).body = .rooms l ∧
      room2 ∈ l := by
  obtain ⟨l, hb, -, h2⟩ :=
    availableFilterLiteral "false" store2 room2 (by decide)
  exact ⟨l, hb, (h2 (by decide)).mpr (by decide)⟩

/-- C6 as stated is false on the code: findByIdAndUpdate with
runValidators casts and validates the update client-side before any
lookup, so an Update whose well-formed identifier matches no stored
entity still fails with 500 when the payload violates a constraint.
Concretely, updating the absent identifier genId 5 in the empty store
with the enum-violating type "penthouse" answers 500, while the claim
requires 404 for every non-existent identifier. -/
theorem updateRoom_validation_counterexample :
    isValidObjectId (genId 5) = true ∧
    (∀ r ∈ store0.rooms, r.id ≠ genId 5) ∧
    (updateRoom (genId 5) payloadBadType store0).2.status = 500 ∧
    ¬ (updateRoom (genId 5) payloadBadType store0).2.status = 404 := by
  decide

/-- C6 (amended): an Update whose payload violates a client-side
constraint on its supplied paths (type outside the enum, malformed
supplied identifier) is answered 500 whether or not the identifier
exists, since the validators run before the lookup; with a payload
passing the client-side checks, a well-formed identifier matching no
stored entity is answered 404 with a message body and the store is
unchanged; an Update of a stored entity (identifiers pairwise distinct)
whose payload also satisfies the write constraints (supplied identifier
equal to the entity's own, roomNumber not colliding with another entity)
is answered 200 with the updated entity exactly as stored after the
update. -/
theorem updateRoom_amended (id : String) (p : RoomPayload) (s : Store) :
    ((∃ t, p.type = some t ∧ isRoomType t = false) ∨
      (∃ pid, p._id = some pid ∧ isValidObjectId pid = false) →
      updateRoom id p s = (s, ⟨500, .msg "Error updating room"⟩)) ∧
    (castUpdate p = true → isValidObjectId id = true →
      (∀ r ∈ s.rooms, r.id ≠ id) →
      updateRoom id p s = (s, ⟨404, .msg "Room not found"⟩)) ∧
    (∀ r, r ∈ s.rooms → r.id = id → isValidObjectId id = true →
      (s.rooms.map (fun q => q.id)).Nodup →
      (∀ t, p.type = some t → isRoomType t = true) →
      (∀ pid, p._id = some pid → pid = id) →
      (∀ rn, p.roomNumber = some rn →
        ∀ q ∈ s.rooms, q.id ≠ id → q.roomNumber ≠ rn) →
      (updateRoom id p s).2 = ⟨200, .room (applyUpdate r p s.now)⟩ ∧
      applyUpdate r p s.now ∈ (updateRoom id p s).1.rooms) := by
  refine ⟨?_, ?_, ?_⟩
  · intro h
    have hc : castUpdate p = false := by
      rcases h with ⟨t, ht, hbad⟩ | ⟨pid, hpid, hbad⟩
      · simp [castUpdate, ht, hbad]
      · simp [castUpdate, hpid, hbad]
    cases hvid : isValidObjectId id <;> simp [updateRoom, hvid, hc]
  · intro hc hvid habs
    have hn : s.rooms.find? (fun r => r.id == id) = none := by
      rw [List.find?_eq_none]
      intro r hr
      simpa using habs r hr
    simp [updateRoom, hvid, hc, hn]
  · intro r hmem hid hv hnd hty hpid hrn
    subst hid
    have hf := find?_eq_of_nodup s.rooms r hnd hmem
    have hc : castUpdate p = true := by
      unfold castUpdate
      rw [Bool.and_eq_true]
      constructor
      · cases hip : p._id with
        | none => rfl
        | some pid =>
          rw [hpid pid hip]
          exact hv
      · cases htp : p.type with
        | none => rfl
        | some t => exact hty t htp
    have hsrv : serverUpdateOk s r p = true := by
      unfold serverUpdateOk
      rw [Bool.and_eq_true]
      constructor
      · cases hip : p._id with
        | none => rfl
        | some pid => simp [hpid pid hip]
      · cases hrp : p.roomNumber with
        | none => rfl
        | some rn =>
          rw [List.all_eq_true]
          intro q hq
          cases hqi : (q.id == r.id) with
          | true => simp
          | false =>
            have hne : q.roomNumber ≠ rn :=
              hrn rn hrp q hq (by simpa using hqi)
            simp [hne]
    constructor
    · simp [updateRoom, hv, hc, hf, hsrv]
    · simp only [updateRoom, hv, hc, hf, hsrv, if_true]
      exact List.mem_map.mpr ⟨r, hmem, by simp⟩

/-- Witness for the amended C6 at concrete inputs: an enum-violating
payload on an absent well-formed identifier is answered 500, and a
price-only update of the stored room is answered 200 with the updated
room. -/
theorem updateRoom_amended_witness :
    updateRoom (genId 5) payloadBadType store0 =
      (store0, ⟨500, .msg "Error updating room"⟩) ∧
    (updateRoom room1.id { price := some 180 } store1).2 =
      ⟨200, .room (applyUpdate room1 { price := some 180 } store1.now)⟩ :=
  ⟨(updateRoom_amended (genId 5) payloadBadType store0).1
      (Or.inl ⟨"penthouse", rfl, by decide⟩),
   ((updateRoom_amended room1.id { price := some 180 } store1).2.2 room1
      (by decide) rfl (by decide) (by decide)
      (fun t ht => by simp at ht) (fun pid h => by simp at h)
      (fun rn h => by simp at h)).1⟩

/-- C7: when an Update succeeds with 200 on a stored entity, every field
the payload does not supply keeps its previous value in the entity
returned and stored; the identifier and createdAt never change. -/
theorem updateRoom_frame (id : String) (p : RoomPayload) (s : Store)
    (r r2 : StoredRoom)
    (hfound : s.rooms.find? (fun q => q.id == id) = some r)
    (h200 : (updateRoom id p s).2 = ⟨200, .room r2⟩) :
    r2.id = r.id ∧ r2.createdAt = r.createdAt ∧
    (p.roomNumber = none → r2.roomNumber = r.roomNumber) ∧
    (p.type = none → r2.type = r.type) ∧
    (p.price = none → r2.price = r.price) ∧
    (p.isAvailable = none → r2.isAvailable = r.isAvailable) ∧
    (p.amenities = none → r2.amenities = r.amenities) ∧
    (p.description = none → r2.description = r.description) ∧
    (p.capacity = none → r2.capacity = r.capacity) ∧
    (p.floor = none → r2.floor = r.floor) := by
  cases hvid : isValidObjectId id with
  | false => simp [updateRoom, hvid] at h200
  | true =>
    cases hcast : castUpdate p with
    | false => simp [updateRoom, hvid, hcast] at h200
    | true =>
      cases hsrv : serverUpdateOk s r p with
      | false => simp [updateRoom, hvid, hcast, hfound, hsrv] at h200
      | true =>
        simp only [updateRoom, hvid, hcast, hfound, hsrv, if_true,
          HttpResponse.mk.injEq, JsonBody.room.injEq, true_and] at h200
        subst h200
        refine ⟨by simp [applyUpdate], by simp [applyUpdate],
          fun h => by simp [applyUpdate, h],
          fun h => by simp [applyUpdate, h],
          fun h => by simp [applyUpdate, h],
          fun h => by simp [applyUpdate, h],
          fun h => by simp [applyUpdate, h],
          fun h => by simp [applyUpdate, h],
          fun h => by simp [applyUpdate, h],
          fun h => by simp [applyUpdate, h]⟩

/-- Witness for C7: updating the stored room with a payload supplying only
the price keeps its roomNumber, type and identifier. -/
theorem updateRoom_frame_witness :
    (applyUpdate room1 { price := some 180 } store1.now).id = room1.id ∧
    (applyUpdate room1 { price := some 180 } store1.now).roomNumber =
      room1.roomNumber ∧
    (applyUpdate room1 { price := some 180 } store1.now).type =
      room1.type := by
  have h := updateRoom_frame room1.id { price := some 180 } store1
    room1 (applyUpdate room1 { price := some 180 } store1.now)
    (by decide) (by decide)
  exact ⟨h.1, h.2.2.1 rfl, h.2.2.2.1 rfl⟩

/-- C8: a Delete whose well-formed identifier matches no stored entity is
answered 404 and changes nothing; a Delete of a stored entity
(identifiers pairwise distinct) is answered 200 with a message and the
prior state of the entity, the entity is removed (hard delete: the
remaining entities are stored ones whose identifier differs), and a
subsequent Get with the same identifier is answered 404. -/
theorem deleteRoom_spec (id : String) (s : Store) :
    (isValidObjectId id = true → (∀ r ∈ s.rooms, r.id ≠ id) →
      deleteRoom id s = (s, ⟨404, .msg "Room not found"⟩)) ∧
    (∀ r, r ∈ s.rooms → r.id = id → isValidObjectId id = true →
      (s.rooms.map (fun q => q.id)).Nodup →
      (deleteRoom id s).2 = ⟨200, .msgRoom "Room deleted successfully" r⟩ ∧
      getRoom id (deleteRoom id s).1 = ⟨404, .msg "Room not found"⟩ ∧
      (∀ q ∈ (deleteRoom id s).1.rooms, q.id ≠ id) ∧
      (∀ q ∈ (deleteRoom id s).1.rooms, q ∈ s.rooms)) := by
  constructor
  · intro h habs
    have hn : s.rooms.find? (fun r => r.id == id) = none := by
      rw [List.find?_eq_none]
      intro r hr
      simpa using habs r hr
    simp [deleteRoom, h, hn]
  · intro r hmem hid hv hnd
    subst hid
    have hf := find?_eq_of_nodup s.rooms r hnd hmem
    have hrooms : (deleteRoom r.id s).1.rooms =
        s.rooms.filter (fun q => !(q.id == r.id)) := by
      simp [deleteRoom, hv, hf]
    have hq : ∀ q ∈ s.rooms.filter (fun q => !(q.id == r.id)),
        (q.id == r.id) = false := by
      intro q hqm
      simpa using (List.mem_filter.mp hqm).2
    refine ⟨by simp [deleteRoom, hv, hf], ?_, ?_, ?_⟩
    · have hn : (s.rooms.filter (fun q => !(q.id == r.id))).find?
          (fun q => q.id == r.id) = none := by
        rw [List.find?_eq_none]
        intro q hqm
        simp [hq q hqm]
      simp [getRoom, findById, hv, hrooms, hn]
    · intro q hqm
      rw [hrooms] at hqm
      simpa using hq q hqm
    · intro q hqm
      rw [hrooms] at hqm
      exact List.mem_of_mem_filter hqm

/-- Witness for C8: deleting the stored room answers 200 with the message
and the prior state, and fetching the same identifier afterwards answers
404. -/
theorem deleteRoom_spec_witness :
    (deleteRoom room1.id store1).2 =
      ⟨200, .msgRoom "Room deleted successfully" room1⟩ ∧
    getRoom room1.id (deleteRoom room1.id store1).1 =
      ⟨404, .msg "Room not found"⟩ := by
  have h := (deleteRoom_spec room1.id store1).2 room1
    (by decide) rfl (by decide) (by decide)
  exact ⟨h.1, h.2.1⟩

/-- C9 as stated is false on the code: new Room(req.body) honors a
client-supplied identifier, so the identifier of a created entity can be
taken from the payload.  Concretely, a Create whose payload supplies the
well-formed fresh identifier genId 5 in the empty store succeeds with
201 and the created entity carries the client identifier, not the
store-generated genId 0. -/
theorem identifier_from_payload_counterexample :
    (createRoom payloadClientId store0).2 =
      ⟨201, .room (mkRoom store0 payloadClientId)⟩ ∧
    (mkRoom store0 payloadClientId).id = genId 5 ∧
    ¬ (mkRoom store0 payloadClientId).id = genId store0.nextId := by
  decide

/-- C9 (amended): the identifier of a created entity is assigned by the
store (from its counter) when the payload supplies none; a payload may
supply its own identifier, which the created entity then carries, and a
supplied identifier colliding with a stored entity makes creation fail
with 500 and store nothing; no Update operation changes the sequence of
stored identifiers, whatever its payload and outcome; creation preserves
pairwise distinctness of identifiers (given freshness of the generated
key when the payload supplies none, as ObjectId generation guarantees,
and by the duplicate-key check when the payload supplies one). -/
theorem identifier_rules (s : Store) (p q : RoomPayload)
    (id : String) :
    (p._id = none → ∀ r, (createRoom p s).2 = ⟨201, .room r⟩ →
      r.id = genId s.nextId) ∧
    (∀ pid, p._id = some pid →
      (∀ r, (createRoom p s).2 = ⟨201, .room r⟩ → r.id = pid) ∧
      ((∃ r ∈ s.rooms, r.id = pid) →
        createRoom p s = (s, ⟨500, .msg "Error creating room"⟩))) ∧
    ((updateRoom id q s).1.rooms.map (fun x => x.id) =
      s.rooms.map (fun x => x.id)) ∧
    ((s.rooms.map (fun x => x.id)).Nodup →
      (p._id = none → ∀ r ∈ s.rooms, r.id ≠ genId s.nextId) →
      ((createRoom p s).1.rooms.map (fun x => x.id)).Nodup) := by
  refine ⟨?_, ?_, ?_, ?_⟩
  · intro hidn r h
    cases hv : validateCreate s p with
    | false => simp [createRoom, hv] at h
    | true =>
      simp only [createRoom, hv, if_true, HttpResponse.mk.injEq,
        JsonBody.room.injEq, true_and] at h
      rw [← h]
      simp [mkRoom, newId, hidn]
  · intro pid hpid
    constructor
    · intro r h
      cases hv : validateCreate s p with
      | false => simp [createRoom, hv] at h
      | true =>
        simp only [createRoom, hv, if_true, HttpResponse.mk.injEq,
          JsonBody.room.injEq, true_and] at h
        rw [← h]
        simp [mkRoom, newId, hpid]
    · rintro ⟨r0, hr0, hr0id⟩
      have hv : validateCreate s p = false := by
        rw [Bool.eq_false_iff]
        intro hvt
        obtain ⟨hI, -, -, -, -, -⟩ := (validateCreate_iff s p).mp hvt
        obtain ⟨-, hfr⟩ := hI pid hpid
        exact hfr r0 hr0 hr0id
      simp [createRoom, hv]
  · cases hvid : isValidObjectId id with
    | false => simp [updateRoom, hvid]
    | true =>
      cases hcast : castUpdate q with
      | false => simp [updateRoom, hvid, hcast]
      | true =>
        cases hfind : s.rooms.find? (fun r => r.id == id) with
        | none => simp [updateRoom, hvid, hcast, hfind]
        | some r =>
          cases hsrv : serverUpdateOk s r q with
          | false => simp [updateRoom, hvid, hcast, hfind, hsrv]
          | true =>
            have hrid : r.id = id := by
              have hb := List.find?_some hfind
              simpa using hb
            simp only [updateRoom, hvid, hcast, hfind, hsrv, if_true]
            rw [List.map_map]
            congr 1
            funext x
            simp only [Function.comp]
            by_cases hxi : x.id = id
            · simp [hxi, applyUpdate, hrid]
            · simp [beq_iff_eq, hxi]
  · intro hnd hfresh
    cases hv : validateCreate s p with
    | false => simpa [createRoom, hv] using hnd
    | true =>
      simp only [createRoom, hv, if_true]
      rw [List.map_append, List.nodup_append]
      refine ⟨hnd, by simp, ?_⟩
      intro x hx
      obtain ⟨y, hy, rfl⟩ := List.mem_map.mp hx
      simp only [List.map_cons, List.map_nil, List.mem_singleton,
        List.mem_cons, List.not_mem_nil]
      intro hc
      rcases hc with hc | hc
      · have hcy : y.id = newId s p := by simpa [mkRoom] using hc
        cases hip : p._id with
        | none => exact hfresh hip y hy (by simpa [newId, hip] using hcy)
        | some pid =>
          obtain ⟨hI, -, -, -, -, -⟩ := (validateCreate_iff s p).mp hv
          obtain ⟨-, hfr2⟩ := hI pid hip
          exact hfr2 y hy (by simpa [newId, hip] using hcy)
      · cases hc

/-- Witness for the amended C9 at concrete inputs: a payload without an
identifier gets the store-generated genId 0, a supplied identifier is
carried by the created entity, updates preserve the identifier sequence,
and creation keeps identifiers duplicate-free. -/
theorem identifier_rules_witness :
    room1.id = genId 0 ∧
    (mkRoom store0 payloadClientId).id = genId 5 ∧
    ((updateRoom room1.id payloadBadType store1).1.rooms.map
      (fun x => x.id) = store1.rooms.map (fun x => x.id)) ∧
    ((createRoom payload1 store0).1.rooms.map (fun x => x.id)).Nodup := by
  have h := identifier_rules store0 payload1 payloadBadType room1.id
  have h5 := identifier_rules store0 payloadClientId payloadBadType room1.id
  have h1 := identifier_rules store1 payload1 payloadBadType room1.id
  exact ⟨h.1 rfl room1 (by decide),
    (h5.2.1 (genId 5) rfl).1 (mkRoom store0 payloadClientId) (by decide),
    h1.2.2.1,
    h.2.2.2 (by decide) (fun hx => by decide)⟩

